import Mathlib

/-!
Verification of the unionobt Discord commerce bot against its specification.

The Python sources (shop.py, invoice_redeem.py, code_redeem.py, tickets.py)
are shallowly embedded below: each handler becomes a pure Lean function over
the ledger state and explicit parameters standing for the outcomes of the
external calls (storefront HTTP fetch, role grant, channel operations).
Exceptions that the Python code lets propagate are modelled with `Except`;
exceptions it swallows become boolean success flags.
-/

namespace UnionBot

/-! ### Python primitives

All string operations are implemented over `List Char` by structural
recursion so that every definition evaluates inside the kernel. -/

/-- Python `str.lower()` on one ASCII character. -/
def pyLowerChar (c : Char) : Char :=
  if 'A' ≤ c ∧ c ≤ 'Z' then Char.ofNat (c.toNat + 32) else c

/-- Python `str.lower()` (ASCII model). -/
def pyLower (s : String) : String :=
  String.mk (s.data.map pyLowerChar)

/-- Python `str.strip()`: drop leading and trailing whitespace. -/
def pyStrip (s : String) : String :=
  String.mk (((s.data.dropWhile Char.isWhitespace).reverse.dropWhile
    Char.isWhitespace).reverse)

/-- Python `x or default` on an optional string: `None` and the empty string
are falsy, so both select the default. -/
def pyStrOr (o : Option String) (default : String) : String :=
  match o with
  | none => default
  | some s => if s = "" then default else s

/-- Worker for `pySplit`: accumulate the current word (reversed). -/
def pySplitAux : List Char → List Char → List (List Char)
  | [], acc => if acc = [] then [] else [acc.reverse]
  | c :: rest, acc =>
      if c.isWhitespace then
        if acc = [] then pySplitAux rest [] else acc.reverse :: pySplitAux rest []
      else pySplitAux rest (c :: acc)

/-- Python `str.split()` with no argument: split on whitespace runs,
discarding empty pieces. -/
def pySplit (s : String) : List String :=
  (pySplitAux s.data []).map String.mk

/-- Whether the second list is an initial segment of the first. -/
def startsWithChars : List Char → List Char → Bool
  | _, [] => true
  | [], _ :: _ => false
  | c :: cs, p :: ps => c == p && startsWithChars cs ps

/-- Python `str.startswith(pre)`. -/
def pyStartsWith (s pre : String) : Bool :=
  startsWithChars s.data pre.data

/-- Everything after the first `=`, i.e. `part.split("=", 1)[1]`; `none` when
there is no `=` (where Python would raise an IndexError). -/
def afterFirstEq : List Char → Option (List Char)
  | [] => none
  | '=' :: rest => some rest
  | _ :: rest => afterFirstEq rest

/-- Decimal digits after the first, allowing single underscores between
digits as Python `int` does. -/
def parseNumTail : List Char → Nat → Option Nat
  | [], acc => some acc
  | '_' :: c :: rest, acc =>
      if c.isDigit then parseNumTail rest (acc * 10 + (c.toNat - 48)) else none
  | c :: rest, acc =>
      if c.isDigit then parseNumTail rest (acc * 10 + (c.toNat - 48)) else none

/-- A nonempty run of decimal digits (with Python-style underscores). -/
def parseNum : List Char → Option Nat
  | [] => none
  | c :: rest => if c.isDigit then parseNumTail rest (c.toNat - 48) else none

/-- Python `int(s)` on ASCII input: strip surrounding whitespace, optional
sign, then decimal digits; `none` models the `ValueError` the callers catch. -/
def pyParseInt (s : String) : Option Int :=
  match (pyStrip s).data with
  | '+' :: rest => (parseNum rest).map Int.ofNat
  | '-' :: rest => (parseNum rest).map (fun n => -(n : Int))
  | l => (parseNum l).map Int.ofNat

/-- Python `f"{n:04d}"` for a natural number: left-pad with zeros to width 4. -/
def pad4 (n : Nat) : String :=
  let s := toString n
  if s.length < 4 then String.mk (List.replicate (4 - s.length) '0') ++ s else s

/-! ### Configuration constants (shop.py / tickets.py / invoice_redeem.py) -/

def ACCESS_ROLE_ID : Nat := 1444450052323147826

def STAFF_ROLE_IDS : List Nat := [1432015464036433970, 1449491116822106263]

/-! ### Invoices (external storefront data, read-only)

An invoice is a JSON object; the fields the code reads are modelled as
optional values (`none` = key absent or JSON null). -/

/-- One entry of `invoice["items"]`; `product_name` stands for
`item.get("product", {}).get("name")` and likewise for the variant. -/
structure LineItem where
  product_name : Option String
  variant_name : Option String
deriving DecidableEq, Repr

structure Invoice where
  status : Option String
  refunded : Option Bool
  cancelled : Option Bool
  items : Option (List LineItem)
  product_name : Option String
  variant_name : Option String
deriving DecidableEq, Repr

/-- shop.py:54 / invoice_redeem.py:43 `invoice_is_paid`. -/
def invoice_is_paid (invoice : Invoice) : Bool :=
  let status := pyLower (pyStrOr invoice.status "")
  let refunded := invoice.refunded.getD false
  let cancelled := invoice.cancelled.getD false
  (status == "completed" || status == "paid") && !refunded && !cancelled

/-- The paid predicate as the SPECIFICATION words it (section 4.1): status
case-insensitively in \x7bpaid, completed, complete\x7d and not refunded and
not cancelled. Kept separate from `invoice_is_paid` to compare the two. -/
def spec_invoice_is_paid (invoice : Invoice) : Bool :=
  let status := pyLower (pyStrOr invoice.status "")
  let refunded := invoice.refunded.getD false
  let cancelled := invoice.cancelled.getD false
  (status == "paid" || status == "completed" || status == "complete")
    && !refunded && !cancelled

/-- shop.py:61 `extract_product_and_variant`. -/
def extract_product_and_variant (invoice : Invoice) : String × String :=
  match invoice.items with
  | some (item :: _) =>
      let product_name := pyStrOr item.product_name "Unknown"
      let variant_name := pyStrOr item.variant_name product_name
      (pyStrip product_name, pyStrip variant_name)
  | _ => ("Unknown", "Standard")

/-! ### Storefront fetch (shop.py:39 / invoice_redeem.py:28 `fetch_invoice`)

The HTTP call is abstracted into an `HttpOutcome`; the function body mirrors
the Python control flow. The `ClientTimeout(total=8)` expiring makes aiohttp
raise `asyncio.TimeoutError`, which `fetch_invoice` does not catch, so the
timeout case is an `Except.error`, not a returned `None`. -/

/-- Exceptions the Python handlers can raise or catch. -/
inductive PyExn where
  | timeoutErr
  | forbidden
deriving DecidableEq, Repr

/-- What the single `GET` to the storefront does. -/
inductive HttpOutcome where
  | timeout
  | response (status : Nat) (body : Invoice)
deriving DecidableEq, Repr

/-- The storefront fetch timeout, seconds (`ClientTimeout(total=8)`). -/
def FETCH_TIMEOUT_SECONDS : Nat := 8

/-- `fetch_invoice`: `none` credentials short-circuit to `None`; a non-200
response yields `None`; a 200 response yields the parsed body; a timeout
propagates as an exception. -/
def fetch_invoice (hasApiKey hasShopId : Bool) (out : HttpOutcome) :
    Except PyExn (Option Invoice) :=
  if !hasApiKey || !hasShopId then .ok none
  else
    match out with
    | .timeout => .error .timeoutErr
    | .response status body =>
        if status ≠ 200 then .ok none else .ok (some body)

/-! ### The role_redeem ledger -/

/-- One row of the `role_redeem` table (the columns the code reads/writes;
the DB-generated primary key is not consulted by any handler and is
omitted). -/
structure RoleRedeemRow where
  code : Option String
  role_id : Nat
  redeemed : Bool
  redeemed_by : Nat
  invoice_id : Option String
  product_name : String
  variant_name : Option String
  discord_username : String
  redeemed_at : String
deriving DecidableEq, Repr

/-- `supabase.table("role_redeem").select(...).eq("invoice_id", v)`. -/
def lookupByInvoice (ledger : List RoleRedeemRow) (invoice_id : String) :
    List RoleRedeemRow :=
  ledger.filter (fun r => r.invoice_id == some invoice_id)

/-- `supabase.table("role_redeem").select("*").eq("role_id", v)`. -/
def lookupByRole (ledger : List RoleRedeemRow) (role_id : Nat) :
    List RoleRedeemRow :=
  ledger.filter (fun r => r.role_id == role_id)

/-! ### Shop redeem modal (shop.py:91 `RedeemOrderModal.on_submit`) -/

inductive ShopMsg where
  | alreadyRedeemed
  | invalidOrUnpaid
  | success
deriving DecidableEq, Repr

instance {ε α : Type} [DecidableEq ε] [DecidableEq α] : DecidableEq (Except ε α) := fun
  | .ok a, .ok b =>
      if h : a = b then .isTrue (by rw [h])
      else .isFalse (by intro he; injection he; contradiction)
  | .ok _, .error _ => .isFalse (fun he => Except.noConfusion he)
  | .error _, .ok _ => .isFalse (fun he => Except.noConfusion he)
  | .error a, .error b =>
      if h : a = b then .isTrue (by rw [h])
      else .isFalse (by intro he; injection he; contradiction)

/-- Result of one modal submission: the user-visible outcome (an uncaught
exception is `.error`), the final ledger, and which effects ran. -/
structure ShopResult where
  outcome : Except PyExn ShopMsg
  ledger : List RoleRedeemRow
  roleGranted : Bool
  inserted : Bool
deriving DecidableEq, Repr

/-- `RedeemOrderModal.on_submit`. Parameters stand for the externals: the
fetch result (`fetch_invoice` may raise), whether the access role resolves,
whether the member already holds it, and whether `add_roles` would raise
`Forbidden` (shop.py does not catch it, so it aborts the handler). -/
def shop_on_submit (ledger : List RoleRedeemRow) (order_id : String)
    (fetchRes : Except PyExn (Option Invoice))
    (roleExists memberHasRole grantForbidden : Bool)
    (memberId : Nat) (memberUsername now : String) : ShopResult :=
  let invoice_id := pyStrip order_id
  match lookupByInvoice ledger invoice_id with
  | _ :: _ => ⟨.ok .alreadyRedeemed, ledger, false, false⟩
  | [] =>
    match fetchRes with
    | .error e => ⟨.error e, ledger, false, false⟩
    | .ok none => ⟨.ok .invalidOrUnpaid, ledger, false, false⟩
    | .ok (some invoice) =>
      if !invoice_is_paid invoice then ⟨.ok .invalidOrUnpaid, ledger, false, false⟩
      else
        let pv := extract_product_and_variant invoice
        let attemptGrant := roleExists && !memberHasRole
        if attemptGrant && grantForbidden then
          ⟨.error .forbidden, ledger, false, false⟩
        else
          let row : RoleRedeemRow :=
            ⟨none, ACCESS_ROLE_ID, true, memberId, some invoice_id,
             pv.1, some pv.2, memberUsername, now⟩
          ⟨.ok .success, ledger ++ [row], attemptGrant, true⟩

/-! ### Staff slash command (invoice_redeem.py:64 `InvoiceRedeem.redeem`) -/

inductive StaffMsg where
  | notConfigured
  | mustBeInServer
  | userNotInServer
  | alreadyRedeemed
  | orderNotFound
  | notPaid
  | roleNotFound
  | cantAssignRoles
  | genericFailure
  | success
deriving DecidableEq, Repr

structure StaffResult where
  message : StaffMsg
  ledger : List RoleRedeemRow
  roleGranted : Bool
  inserted : Bool
deriving DecidableEq, Repr

/-- `InvoiceRedeem.redeem`. The whole body sits inside a catch-all
`try/except`, so an exception escaping `fetch_invoice` (the timeout) becomes
the generic failure message; `discord.Forbidden` from `add_roles` is caught
specifically and answered with the remediation message before the insert. -/
def invoice_redeem_command (configOk inGuild userInGuild : Bool)
    (ledger : List RoleRedeemRow) (order_id : String)
    (fetchRes : Except PyExn (Option Invoice))
    (roleExists userHasRole grantForbidden : Bool)
    (staffId : Nat) (targetUsername now : String) : StaffResult :=
  let invoice_id := pyStrip order_id
  if !configOk then ⟨.notConfigured, ledger, false, false⟩
  else if !inGuild then ⟨.mustBeInServer, ledger, false, false⟩
  else if !userInGuild then ⟨.userNotInServer, ledger, false, false⟩
  else
    match lookupByInvoice ledger invoice_id with
    | _ :: _ => ⟨.alreadyRedeemed, ledger, false, false⟩
    | [] =>
      match fetchRes with
      | .error _ => ⟨.genericFailure, ledger, false, false⟩
      | .ok none => ⟨.orderNotFound, ledger, false, false⟩
      | .ok (some invoice) =>
        if !invoice_is_paid invoice then ⟨.notPaid, ledger, false, false⟩
        else
          let product_name := invoice.product_name.getD "Unknown Product"
          let variant_name := invoice.variant_name
          if !roleExists then ⟨.roleNotFound, ledger, false, false⟩
          else if !userHasRole && grantForbidden then
            ⟨.cantAssignRoles, ledger, false, false⟩
          else
            let row : RoleRedeemRow :=
              ⟨none, ACCESS_ROLE_ID, true, staffId, some invoice_id,
               product_name, variant_name, targetUsername, now⟩
            ⟨.success, ledger ++ [row], !userHasRole, true⟩

/-! ### Legacy role-code redeem (code_redeem.py:27 `DynamicRedeemButton.callback`) -/

inductive CodeMsg where
  | guildNotFound
  | noRequiredRole
  | noEntry
  | alreadyRedeemed
  | fileMissing
  | dmFailed
  | success
deriving DecidableEq, Repr

structure CodeResult where
  message : CodeMsg
  ledger : List RoleRedeemRow
deriving DecidableEq, Repr

/-- `DynamicRedeemButton.callback`: role membership, ledger state, file
existence, then DM delivery, then the update-in-place `eq("role_id", ...)`.
`fileFound` models `os.path.exists(self.product_path)`; `dmOk` models the DM
send not raising `discord.Forbidden`. -/
def code_redeem_callback (guildFound : Bool) (userRoleIds : List Nat)
    (requiredRole : Nat) (ledger : List RoleRedeemRow) (userId : Nat)
    (fileFound dmOk : Bool) : CodeResult :=
  if !guildFound then ⟨.guildNotFound, ledger⟩
  else if !(userRoleIds.contains requiredRole) then ⟨.noRequiredRole, ledger⟩
  else
    match lookupByRole ledger requiredRole with
    | [] => ⟨.noEntry, ledger⟩
    | row :: _ =>
      if row.redeemed && row.redeemed_by == userId then ⟨.alreadyRedeemed, ledger⟩
      else if !fileFound then ⟨.fileMissing, ledger⟩
      else if !dmOk then ⟨.dmFailed, ledger⟩
      else
        ⟨.success,
         ledger.map (fun r =>
           if r.role_id == requiredRole then
             { r with redeemed := true, redeemed_by := userId }
           else r)⟩

/-! ### Tickets (tickets.py) -/

/-- tickets.py:24 `_has_staff_role`, over the member's role-id list. -/
def _has_staff_role (memberRoleIds : List Nat) : Bool :=
  memberRoleIds.any (fun r => STAFF_ROLE_IDS.contains r)

/-- Generic worker for both topic parsers: the first whitespace-separated
part starting with the key decides; `int(...)` failure is caught to `None`. -/
def topicValue (pre : String) (topic : Option String) : Option Int :=
  match topic with
  | none => none
  | some t =>
    if t = "" then none
    else
      match (pySplit t).find? (fun part => pyStartsWith part pre) with
      | none => none
      | some part =>
        match afterFirstEq part.data with
        | none => none
        | some rest => pyParseInt (String.mk rest)

/-- tickets.py:28 `_get_opener_id_from_topic`. -/
def _get_opener_id_from_topic (topic : Option String) : Option Int :=
  topicValue "ticket_opener=" topic

/-- tickets.py:41 `_get_ticket_id_from_topic`. -/
def _get_ticket_id_from_topic (topic : Option String) : Option Int :=
  topicValue "ticket_id=" topic

inductive CloseMsg where
  | mustBeInServer
  | onlyInTicketChannel
  | noPermission
  | closing
deriving DecidableEq, Repr

/-- One `tickets` table row. -/
structure TicketRow where
  id : Nat
  opener_id : Nat
  status : String
  channel_id : Option Nat
deriving DecidableEq, Repr

/-- Result of pressing the close button: the response message, the id of the
ledger row marked closed (if any), and whether the channel got deleted. -/
structure CloseResult where
  message : CloseMsg
  closedTicket : Option Int
  channelDeleted : Bool
deriving DecidableEq, Repr

/-- tickets.py:63 `CloseTicketView.close_ticket`. `dbOk` models the
best-effort ledger update not raising; `deleteOk` the best-effort channel
deletion (both exceptions are swallowed in the source). Note `if ticket_id:`
is Python truthiness, so a parsed ticket id of 0 skips the update. -/
def close_ticket (memberInGuild isTextChannel : Bool) (topic : Option String)
    (userRoleIds : List Nat) (userId : Nat) (dbOk deleteOk : Bool) :
    CloseResult :=
  if !memberInGuild then ⟨.mustBeInServer, none, false⟩
  else if !isTextChannel then ⟨.onlyInTicketChannel, none, false⟩
  else
    let opener_id := _get_opener_id_from_topic topic
    let ticket_id := _get_ticket_id_from_topic topic
    let is_staff := _has_staff_role userRoleIds
    let is_opener :=
      match opener_id with
      | some oid => oid == (userId : Int)
      | none => false
    if !(is_staff || is_opener) then ⟨.noPermission, none, false⟩
    else
      let upd : Option Int :=
        match ticket_id with
        | some t => if t ≠ 0 ∧ dbOk then some t else none
        | none => none
      ⟨.closing, upd, deleteOk⟩

/-- The `order("id", desc=True).limit(1)` query over the open tickets of one
opener: the matching row with the largest id. -/
def latestOpenTicket (tickets : List TicketRow) (openerId : Nat) :
    Option TicketRow :=
  (tickets.filter (fun r => r.opener_id == openerId && r.status == "open")).foldl
    (fun acc r =>
      match acc with
      | none => some r
      | some b => if r.id > b.id then some r else some b)
    none

/-- Result of `create_or_get_ticket_channel`: the returned channel id
(`none` = Python `None`), the final tickets table, whether a fresh channel
was created, and the new channel name/topic when one was. -/
structure CreateResult where
  returned : Option Nat
  tickets : List TicketRow
  createdChannel : Bool
  newChannelName : Option String
  newTopic : Option String
deriving DecidableEq, Repr

/-- tickets.py:134 `create_or_get_ticket_channel`. `categoryOk` models the
ticket category resolving to a CategoryChannel; `lookupOk`/`insertOk`/
`updateOk` model the three datastore calls not raising (lookup and update
failures are swallowed, an insert failure falls back to a timestamp id);
`textChannelIds` is the guild's text-channel cache for `get_channel`;
`newRowId` is the id the datastore generates for an inserted row;
`newChannelId` the id of a freshly created channel. Channel creation itself
is modelled as succeeding (the source does not guard it). -/
def create_or_get_ticket_channel (categoryOk : Bool) (tickets : List TicketRow)
    (memberId : Nat) (textChannelIds : List Nat)
    (lookupOk insertOk updateOk : Bool) (newRowId fallbackTs newChannelId : Nat) :
    CreateResult :=
  if !categoryOk then ⟨none, tickets, false, none, none⟩
  else
    let existing : Option Nat :=
      if lookupOk then
        match latestOpenTicket tickets memberId with
        | some row =>
          match row.channel_id with
          | some cid =>
            if cid ≠ 0 ∧ textChannelIds.contains cid then some cid else none
          | none => none
        | none => none
      else none
    match existing with
    | some cid => ⟨some cid, tickets, false, none, none⟩
    | none =>
      let ticketsIns :=
        if insertOk then tickets ++ [⟨newRowId, memberId, "open", none⟩]
        else tickets
      let dbId : Nat := if insertOk then newRowId else 0
      let ticket_id := if dbId = 0 then fallbackTs else dbId
      let channel_name := "ticket-" ++ pad4 ticket_id
      let topic :=
        "ticket_opener=" ++ toString memberId ++ " ticket_id=" ++
          toString ticket_id
      let ticketsFinal :=
        if updateOk then
          ticketsIns.map (fun r =>
            if r.id == ticket_id then { r with channel_id := some newChannelId }
            else r)
        else ticketsIns
      ⟨some newChannelId, ticketsFinal, true, some channel_name, some topic⟩

/-! ## Claims -/

/-- Claim C1, counterexample: an invoice whose status is "complete" (not
refunded, not cancelled) is paid according to the claimed status set
\x7bpaid, completed, complete\x7d, yet `invoice_is_paid` returns false: the
code only accepts "completed" and "paid". -/
theorem C1_counterexample :
    invoice_is_paid ⟨some "complete", some false, some false, none, none, none⟩ = false ∧
    spec_invoice_is_paid ⟨some "complete", some false, some false, none, none, none⟩ = true := by
  decide

/-- Claim C1, amended: `invoice_is_paid` returns true iff the invoice status,
lowercased, is one of \x7b"completed", "paid"\x7d (the status "complete" is NOT
accepted) and `refunded` and `cancelled` default to false and are false. -/
theorem C1_invoice_is_paid_characterisation (invoice : Invoice) :
    invoice_is_paid invoice = true ↔
      ((pyLower (pyStrOr invoice.status "") = "completed" ∨
        pyLower (pyStrOr invoice.status "") = "paid") ∧
       invoice.refunded.getD false = false ∧
       invoice.cancelled.getD false = false) := by
  simp [invoice_is_paid, and_assoc]

/-- Claim C3, counterexample: with both credentials present, an elapsed
timeout makes `fetch_invoice` raise (aiohttp's timeout error propagates, the
function has no handler), so it does not return `None` there. -/
theorem C3_counterexample :
    fetch_invoice true true HttpOutcome.timeout = .error PyExn.timeoutErr ∧
    (Except.error PyExn.timeoutErr : Except PyExn (Option Invoice)) ≠ .ok none := by
  decide

/-- Claim C3, amended: `fetch_invoice` returns `None` when a credential is
missing or the storefront answers non-200, returns the parsed body on a 200
answer, and raises exactly when both credentials are present and the
8-second timeout elapses. -/
theorem C3_fetch_invoice_contract (hasApiKey hasShopId : Bool)
    (out : HttpOutcome) :
    (fetch_invoice hasApiKey hasShopId out = .error PyExn.timeoutErr ↔
       hasApiKey = true ∧ hasShopId = true ∧ out = HttpOutcome.timeout) ∧
    ((hasApiKey = false ∨ hasShopId = false) →
       fetch_invoice hasApiKey hasShopId out = .ok none) ∧
    (∀ status body, out = HttpOutcome.response status body → hasApiKey = true →
       hasShopId = true →
       fetch_invoice hasApiKey hasShopId out =
         if status = 200 then .ok (some body) else .ok none) ∧
    (∀ e, fetch_invoice hasApiKey hasShopId out = .error e →
       e = PyExn.timeoutErr ∧ out = HttpOutcome.timeout) := by
  cases hasApiKey <;> cases hasShopId <;> cases out <;> simp [fetch_invoice]
  rename_i status body
  by_cases h200 : status = 200 <;> simp [h200]

/-- Claim C9, counterexample: for an invoice with one line item whose variant
name is absent, the variant falls back to the product name ("Widget"), not to
"Standard" as claimed. -/
theorem C9_counterexample :
    extract_product_and_variant
        ⟨none, none, none, some [⟨some "Widget", none⟩], none, none⟩ =
      ("Widget", "Widget") ∧
    ("Widget" : String) ≠ "Standard" := by
  decide

/-- Claim C9, amended: extraction reads only the first element of the items
list; when an item is present, an absent product name falls back to
"Unknown" and an absent variant name falls back to the product name (not
"Standard"); when the items list is missing or empty, the result is
("Unknown", "Standard"). -/
theorem C9_extract_product_and_variant_rules :
    (∀ st rf cl pn vn item rest rest2,
       extract_product_and_variant ⟨st, rf, cl, some (item :: rest), pn, vn⟩ =
         extract_product_and_variant ⟨st, rf, cl, some (item :: rest2), pn, vn⟩) ∧
    (∀ st rf cl pn vn vname rest,
       (extract_product_and_variant
           ⟨st, rf, cl, some (⟨none, vname⟩ :: rest), pn, vn⟩).1 = "Unknown") ∧
    (∀ st rf cl pn vn,
       extract_product_and_variant ⟨st, rf, cl, none, pn, vn⟩ =
           ("Unknown", "Standard") ∧
       extract_product_and_variant ⟨st, rf, cl, some [], pn, vn⟩ =
           ("Unknown", "Standard")) ∧
    (∀ st rf cl pn vn pname rest,
       (extract_product_and_variant
           ⟨st, rf, cl, some (⟨pname, none⟩ :: rest), pn, vn⟩).2 =
         (extract_product_and_variant
           ⟨st, rf, cl, some (⟨pname, none⟩ :: rest), pn, vn⟩).1) := by
  refine ⟨fun _ _ _ _ _ _ _ _ => rfl, fun _ _ _ _ _ vname _ => ?_,
    fun _ _ _ _ _ => ⟨rfl, rfl⟩, fun _ _ _ _ _ pname _ => rfl⟩
  cases vname <;> rfl

/-- Claim C2: when the order id (stripped) already matches a ledger row, both
the shop modal and the staff slash command (once the staff command's earlier
configuration, guild and target-membership checks pass) answer
already-redeemed, grant no role, insert nothing, and leave the ledger as it
was. -/
theorem C2_already_redeemed_rejected (ledger : List RoleRedeemRow)
    (order_id : String) (fetchRes : Except PyExn (Option Invoice))
    (roleExists memberHasRole grantForbidden userHasRole : Bool)
    (memberId staffId : Nat) (memberUsername targetUsername now : String)
    (h : lookupByInvoice ledger (pyStrip order_id) ≠ []) :
    shop_on_submit ledger order_id fetchRes roleExists memberHasRole
        grantForbidden memberId memberUsername now =
      ⟨.ok .alreadyRedeemed, ledger, false, false⟩ ∧
    invoice_redeem_command true true true ledger order_id fetchRes roleExists
        userHasRole grantForbidden staffId targetUsername now =
      ⟨.alreadyRedeemed, ledger, false, false⟩ := by
  obtain ⟨r, rs, he⟩ := List.exists_cons_of_ne_nil h
  exact ⟨by simp [shop_on_submit, he], by simp [invoice_redeem_command, he]⟩

theorem C2_witness :
    shop_on_submit [⟨none, 1, true, 2, some "A", "P", none, "u", "t"⟩] "A"
        (.ok none) false false false 0 "" "" =
      ⟨.ok .alreadyRedeemed, [⟨none, 1, true, 2, some "A", "P", none, "u", "t"⟩],
       false, false⟩ ∧
    invoice_redeem_command true true true
        [⟨none, 1, true, 2, some "A", "P", none, "u", "t"⟩] "A" (.ok none)
        false false false 3 "" "" =
      ⟨.alreadyRedeemed, [⟨none, 1, true, 2, some "A", "P", none, "u", "t"⟩],
       false, false⟩ :=
  C2_already_redeemed_rejected _ _ _ _ _ _ _ _ _ _ _ _ (by decide)

/-- Claim C4: with a fresh order id and a paid invoice, if granting the
access role fails with a permission error then no ledger row is written in
either flow: the shop modal aborts with the uncaught `Forbidden` and the
staff command answers with the remediation message, both before the insert
step. -/
theorem C4_forbidden_grant_inserts_nothing (ledger : List RoleRedeemRow)
    (order_id : String) (invoice : Invoice) (memberId staffId : Nat)
    (memberUsername targetUsername now : String)
    (h1 : lookupByInvoice ledger (pyStrip order_id) = [])
    (h2 : invoice_is_paid invoice = true) :
    shop_on_submit ledger order_id (.ok (some invoice)) true false true
        memberId memberUsername now =
      ⟨.error .forbidden, ledger, false, false⟩ ∧
    invoice_redeem_command true true true ledger order_id (.ok (some invoice))
        true false true staffId targetUsername now =
      ⟨.cantAssignRoles, ledger, false, false⟩ := by
  exact ⟨by simp [shop_on_submit, h1, h2], by simp [invoice_redeem_command, h1, h2]⟩

theorem C4_witness :
    shop_on_submit [] "A" (.ok (some ⟨some "paid", none, none, none, none, none⟩))
        true false true 2 "u" "t" =
      ⟨.error .forbidden, [], false, false⟩ ∧
    invoice_redeem_command true true true [] "A"
        (.ok (some ⟨some "paid", none, none, none, none, none⟩)) true false true
        3 "v" "t" =
      ⟨.cantAssignRoles, [], false, false⟩ :=
  C4_forbidden_grant_inserts_nothing _ _ _ _ _ _ _ _ (by decide) (by decide)

/-- Claim C5: a close request from a member who holds no staff role and is
not the opener recorded in the channel topic is answered with the permission
message; the channel is not deleted and no tickets row is updated. -/
theorem C5_close_requires_staff_or_opener (topic : Option String)
    (userRoleIds : List Nat) (userId : Nat) (dbOk deleteOk : Bool)
    (hstaff : _has_staff_role userRoleIds = false)
    (hopener : _get_opener_id_from_topic topic ≠ some (userId : Int)) :
    close_ticket true true topic userRoleIds userId dbOk deleteOk =
      ⟨.noPermission, none, false⟩ := by
  cases ho : _get_opener_id_from_topic topic with
  | none => simp [close_ticket, hstaff, ho]
  | some oid =>
      have hne : (oid == (userId : Int)) = false := by
        rw [beq_eq_false_iff_ne]
        intro hc
        exact hopener (by rw [ho, hc])
      simp [close_ticket, hstaff, ho, hne]

theorem C5_witness :
    close_ticket true true (some "ticket_opener=99 ticket_id=7") [] 5 true true =
      ⟨.noPermission, none, false⟩ :=
  C5_close_requires_staff_or_opener _ _ _ _ _ (by decide) (by decide)

/-- Claim C10: the topic parsers are total — on a missing topic, an empty
topic, or a non-numeric value they return `none` instead of raising — and
when the opener id parses to `none`, a requester without a staff role is
rejected: only staff can close such a channel. -/
theorem C10_opener_parse_none_admits_staff_only (topic : Option String)
    (userRoleIds : List Nat) (userId : Nat) (dbOk deleteOk : Bool)
    (hnone : _get_opener_id_from_topic topic = none)
    (hstaff : _has_staff_role userRoleIds = false) :
    close_ticket true true topic userRoleIds userId dbOk deleteOk =
      ⟨.noPermission, none, false⟩ ∧
    _get_opener_id_from_topic none = none ∧
    _get_opener_id_from_topic (some "") = none ∧
    _get_opener_id_from_topic (some "ticket_opener=abc ticket_id=7") = none ∧
    _get_ticket_id_from_topic (some "ticket_id=") = none ∧
    _get_ticket_id_from_topic (some "ticket_id=12=3") = none := by
  refine ⟨?_, by decide, by decide, by decide, by decide, by decide⟩
  simp [close_ticket, hstaff, hnone]

theorem C10_witness :
    close_ticket true true (some "ticket_opener=abc ticket_id=7") [] 5 true true =
      ⟨.noPermission, none, false⟩ ∧
    _get_opener_id_from_topic none = none ∧
    _get_opener_id_from_topic (some "") = none ∧
    _get_opener_id_from_topic (some "ticket_opener=abc ticket_id=7") = none ∧
    _get_ticket_id_from_topic (some "ticket_id=") = none ∧
    _get_ticket_id_from_topic (some "ticket_id=12=3") = none :=
  C10_opener_parse_none_admits_staff_only _ _ _ _ _ (by decide) (by decide)

/-- Claim C6, counterexample: the opener (id 5) has an open ticket in the
ledger, but its `channel_id` is null, so instead of returning that ticket's
channel the function inserts a second ledger row and creates a fresh
channel. -/
theorem C6_counterexample :
    latestOpenTicket [⟨7, 5, "open", none⟩] 5 = some ⟨7, 5, "open", none⟩ ∧
    (create_or_get_ticket_channel true [⟨7, 5, "open", none⟩] 5 [] true true
        true 8 999 42).createdChannel = true ∧
    (create_or_get_ticket_channel true [⟨7, 5, "open", none⟩] 5 [] true true
        true 8 999 42).tickets.length = 2 := by
  decide

/-- Claim C6, amended: the existing channel is returned with nothing created
only when the ticket category resolves, the ledger lookup succeeds, and the
opener's newest open row has a nonzero `channel_id` that resolves to a text
channel of the guild; then the ledger is left unchanged. (When the stored
channel is null or stale the code instead creates a new row and channel, as
the counterexample shows.) -/
theorem C6_existing_live_channel_returned (tickets : List TicketRow)
    (memberId : Nat) (textChannelIds : List Nat) (insertOk updateOk : Bool)
    (newRowId fallbackTs newChannelId : Nat) (row : TicketRow) (cid : Nat)
    (hrow : latestOpenTicket tickets memberId = some row)
    (hcid : row.channel_id = some cid)
    (hcid0 : cid ≠ 0)
    (hlive : textChannelIds.contains cid = true) :
    create_or_get_ticket_channel true tickets memberId textChannelIds true
        insertOk updateOk newRowId fallbackTs newChannelId =
      ⟨some cid, tickets, false, none, none⟩ := by
  have hmem : cid ∈ textChannelIds := by simpa using hlive
  simp [create_or_get_ticket_channel, hrow, hcid, hcid0, hmem]

theorem C6_witness :
    create_or_get_ticket_channel true [⟨7, 5, "open", some 42⟩] 5 [42] true
        true true 8 999 43 =
      ⟨some 42, [⟨7, 5, "open", some 42⟩], false, none, none⟩ :=
  C6_existing_live_channel_returned [⟨7, 5, "open", some 42⟩] 5 [42] true true
    8 999 43 ⟨7, 5, "open", some 42⟩ 42
    (by decide) (by decide) (by decide) (by decide)

/-- Claim C7: the legacy button answers already-redeemed exactly when the
first ledger row for the button's role has its redeemed flag set and its
redeemed_by equal to the pressing user; a different user holding the role is
not blocked by that check and, with the file and DM succeeding, redeems: the
rows for that role are then updated in place (the ledger length never
changes — nothing is inserted) with redeemed true and redeemed_by that
user. -/
theorem C7_legacy_redeem_semantics (guildFound : Bool) (userRoleIds : List Nat)
    (requiredRole : Nat) (ledger : List RoleRedeemRow) (userId : Nat)
    (fileFound dmOk : Bool) :
    ((code_redeem_callback guildFound userRoleIds requiredRole ledger userId
        fileFound dmOk).message = CodeMsg.alreadyRedeemed ↔
      guildFound = true ∧ userRoleIds.contains requiredRole = true ∧
      ∃ row rest, lookupByRole ledger requiredRole = row :: rest ∧
        row.redeemed = true ∧ row.redeemed_by = userId) ∧
    (∀ row rest, guildFound = true → userRoleIds.contains requiredRole = true →
      lookupByRole ledger requiredRole = row :: rest →
      row.redeemed_by ≠ userId → fileFound = true → dmOk = true →
      code_redeem_callback guildFound userRoleIds requiredRole ledger userId
          fileFound dmOk =
        ⟨CodeMsg.success,
         ledger.map (fun r =>
           if r.role_id == requiredRole then
             { r with redeemed := true, redeemed_by := userId }
           else r)⟩) ∧
    (code_redeem_callback guildFound userRoleIds requiredRole ledger userId
        fileFound dmOk).ledger.length = ledger.length := by
  refine ⟨⟨?_, ?_⟩, ?_, ?_⟩
  · intro h
    cases guildFound with
    | false => simp [code_redeem_callback] at h
    | true =>
      by_cases hc : requiredRole ∈ userRoleIds
      · cases hl : lookupByRole ledger requiredRole with
        | nil => simp [code_redeem_callback, hc, hl] at h
        | cons row rest =>
          by_cases ha : row.redeemed = true ∧ row.redeemed_by = userId
          · exact ⟨rfl, by simpa using hc, row, rest, rfl, ha.1, ha.2⟩
          · exfalso
            cases fileFound <;> cases dmOk <;>
              simp [code_redeem_callback, hc, hl, ha] at h
      · simp [code_redeem_callback, hc] at h
  · rintro ⟨hg, hc, row, rest, hl, hred, hby⟩
    subst hg
    have hc2 : requiredRole ∈ userRoleIds := by simpa using hc
    simp [code_redeem_callback, hc2, hl, hred, hby]
  · intro row rest hg hc hl hby hf hd
    subst hg hf hd
    have hc2 : requiredRole ∈ userRoleIds := by simpa using hc
    have ha : ¬(row.redeemed = true ∧ row.redeemed_by = userId) := fun hx => hby hx.2
    simp [code_redeem_callback, hc2, hl, ha]
  · cases guildFound with
    | false => simp [code_redeem_callback]
    | true =>
      by_cases hc : requiredRole ∈ userRoleIds
      · cases hl : lookupByRole ledger requiredRole with
        | nil => simp [code_redeem_callback, hc, hl]
        | cons row rest =>
          by_cases ha : row.redeemed = true ∧ row.redeemed_by = userId <;>
            cases fileFound <;> cases dmOk <;>
              simp [code_redeem_callback, hc, hl, ha]
      · simp [code_redeem_callback, hc]

/-- Claim C8: the button callback checks role membership, then ledger
redemption state, then file existence, in that order — each failed check
answers its own message with the ledger untouched, regardless of every later
input — and DM delivery happens before the ledger write: a failed DM also
leaves the ledger unchanged, while full success performs the in-place
update. -/
theorem C8_callback_check_order (userRoleIds : List Nat) (requiredRole : Nat)
    (ledger : List RoleRedeemRow) (userId : Nat) :
    (∀ fileFound dmOk, userRoleIds.contains requiredRole = false →
      code_redeem_callback true userRoleIds requiredRole ledger userId
          fileFound dmOk = ⟨.noRequiredRole, ledger⟩) ∧
    (∀ fileFound dmOk, userRoleIds.contains requiredRole = true →
      lookupByRole ledger requiredRole = [] →
      code_redeem_callback true userRoleIds requiredRole ledger userId
          fileFound dmOk = ⟨.noEntry, ledger⟩) ∧
    (∀ fileFound dmOk row rest, userRoleIds.contains requiredRole = true →
      lookupByRole ledger requiredRole = row :: rest →
      (row.redeemed && row.redeemed_by == userId) = true →
      code_redeem_callback true userRoleIds requiredRole ledger userId
          fileFound dmOk = ⟨.alreadyRedeemed, ledger⟩) ∧
    (∀ dmOk row rest, userRoleIds.contains requiredRole = true →
      lookupByRole ledger requiredRole = row :: rest →
      (row.redeemed && row.redeemed_by == userId) = false →
      code_redeem_callback true userRoleIds requiredRole ledger userId
          false dmOk = ⟨.fileMissing, ledger⟩) ∧
    (∀ row rest, userRoleIds.contains requiredRole = true →
      lookupByRole ledger requiredRole = row :: rest →
      (row.redeemed && row.redeemed_by == userId) = false →
      code_redeem_callback true userRoleIds requiredRole ledger userId
          true false = ⟨.dmFailed, ledger⟩) ∧
    (∀ row rest, userRoleIds.contains requiredRole = true →
      lookupByRole ledger requiredRole = row :: rest →
      (row.redeemed && row.redeemed_by == userId) = false →
      code_redeem_callback true userRoleIds requiredRole ledger userId
          true true =
        ⟨.success,
         ledger.map (fun r =>
           if r.role_id == requiredRole then
             { r with redeemed := true, redeemed_by := userId }
           else r)⟩) := by
  refine ⟨fun fileFound dmOk hc => ?_, fun fileFound dmOk hc hl => ?_,
    fun fileFound dmOk row rest hc hl ha => ?_,
    fun dmOk row rest hc hl ha => ?_, fun row rest hc hl ha => ?_,
    fun row rest hc hl ha => ?_⟩
  · have hc2 : requiredRole ∉ userRoleIds := by simpa using hc
    simp [code_redeem_callback, hc2]
  · have hc2 : requiredRole ∈ userRoleIds := by simpa using hc
    simp [code_redeem_callback, hc2, hl]
  · have hc2 : requiredRole ∈ userRoleIds := by simpa using hc
    have ha2 : row.redeemed = true ∧ row.redeemed_by = userId := by simpa using ha
    simp [code_redeem_callback, hc2, hl, ha2.1, ha2.2]
  · have hc2 : requiredRole ∈ userRoleIds := by simpa using hc
    have ha2 : ¬(row.redeemed = true ∧ row.redeemed_by = userId) := by simpa using ha
    simp [code_redeem_callback, hc2, hl, ha2]
  · have hc2 : requiredRole ∈ userRoleIds := by simpa using hc
    have ha2 : ¬(row.redeemed = true ∧ row.redeemed_by = userId) := by simpa using ha
    simp [code_redeem_callback, hc2, hl, ha2]
  · have hc2 : requiredRole ∈ userRoleIds := by simpa using hc
    have ha2 : ¬(row.redeemed = true ∧ row.redeemed_by = userId) := by simpa using ha
    simp [code_redeem_callback, hc2, hl, ha2]

end UnionBot
